import Mathlib

/-!
# Verification of the HighLatencyGPIO library against its specification

Shallow embedding of `GPIO.cc`/`GPIO.hh` (sysfs GPIO handle with optional
edge-triggered interrupt threads).  The embedding follows the source:

* `Gpio.Direction`, `Gpio.Value`, `Gpio.Edge` mirror the enums in `GPIO.hh`.
* `GpioError` names the failure taxonomy; each constructor corresponds to one
  `throw std::runtime_error` site in `GPIO.cc`.
* Constructor and destructor bodies are straight-line sequences of externally
  visible actions; they are embedded as explicit action lists
  (`interruptCtorActions`, `destructorActions`).
* `GPIO::initCommon` is embedded as a function over a model of the sysfs
  environment (controller ranges plus the set of currently exported pins).
* The `pollLoop` poll-result dispatch (EdgeWatcher) is embedded as a function
  from the poll return code / revents / read result to the action the loop
  body takes.
* The non-LOCKFREE `isrLoop` (Dispatcher) is embedded as a small-step
  transition system interleaving the consumer with producer pushes and the
  destructor's shutdown-flag write.
-/

namespace Gpio

/-- `GPIO::Direction` from `GPIO.hh`. -/
inductive Direction : Type
  | IN
  | OUT
deriving DecidableEq, Repr

/-- `GPIO::Value` from `GPIO.hh`. -/
inductive Value : Type
  | HIGH
  | LOW
deriving DecidableEq, Repr

/-- `GPIO::Edge` from `GPIO.hh`. -/
inductive Edge : Type
  | NONE
  | RISING
  | FALLING
  | BOTH
deriving DecidableEq, Repr

end Gpio

/-- Failure taxonomy of the spec (§7); each constructor models one
`throw std::runtime_error` site of `GPIO.cc`:
`InvalidPin` = "GPIO ... is invalid" (initCommon), `AlreadyExported` =
"already exported" (initCommon), `IoError` = any open/read/write failure,
`CorruptValue` = "Invalid value read from GPIO" (pollLoop / getValue),
`WrongDirection` = "Cannot set value on an input GPIO" (setValue),
`EdgeUnsupported` = edge write failure (interrupt constructor),
`InternalInvariantViolation` = "poll() return code indicates timeout"
(pollLoop). -/
inductive GpioError : Type
  | InvalidPin
  | AlreadyExported
  | IoError
  | CorruptValue
  | WrongDirection
  | EdgeUnsupported
  | InternalInvariantViolation
deriving DecidableEq, Repr

/-- The members of class `GPIO` relevant to lifecycle claims, as left by a
constructor (and, for the interrupt mode, as later updated by `pollLoop`).
`pipeFD = none` models the state in which `pipe(_pipeFD)` has never been
called, so the two `int _pipeFD[2]` slots hold indeterminate (uninitialized)
values; `some (r, w)` models a created pipe with read end `r` and write end
`w`.  `pollFD` is `-1` until `pollLoop` opens the value file (GPIO.cc:52,
GPIO.cc:233).  The `Joinable` flags model whether the corresponding
`std::thread` member holds a running thread (default-constructed threads are
non-joinable, GPIO.cc:51, GPIO.cc:53). -/
structure GpioHandle : Type where
  id : Nat
  direction : Gpio.Direction
  edge : Gpio.Edge
  pollFD : Int
  pipeFD : Option (Int × Int)
  isrThreadJoinable : Bool
  pollThreadJoinable : Bool
deriving DecidableEq, Repr

/-- The handle produced by the static-direction constructor
`GPIO::GPIO(unsigned short id, Direction direction)` (GPIO.cc:46-58): edge is
`NONE`, `_pollFD` is the sentinel `-1`, both thread members are
default-constructed (non-joinable), no pipe is ever created and `_pipeFD` is
absent from the initializer list, so it stays uninitialized. -/
def staticCtorHandle (id : Nat) (direction : Gpio.Direction) : GpioHandle :=
  { id := id
    direction := direction
    edge := Gpio.Edge.NONE
    pollFD := -1
    pipeFD := none
    isrThreadJoinable := false
    pollThreadJoinable := false }

/-- The handle as left by the interrupt constructor
`GPIO::GPIO(unsigned short id, Edge edge, std::function<void(Value)> isr)`
(GPIO.cc:61-97) at the end of its body: direction is forced to `IN`
(GPIO.cc:63), both threads have been started (joinable); `_pollFD` and
`_pipeFD` are only assigned later by the `pollLoop` thread. -/
def interruptCtorHandle (id : Nat) (edge : Gpio.Edge) : GpioHandle :=
  { id := id
    direction := Gpio.Direction.IN
    edge := edge
    pollFD := -1
    pipeFD := none
    isrThreadJoinable := true
    pollThreadJoinable := true }

/-- An interrupt-mode handle once its `pollLoop` thread has performed its
initialization (GPIO.cc:228-254): the value descriptor `fd` is open and the
wakeup pipe `(r, w)` exists.  This is the state the destructor sees in normal
interrupt-mode use. -/
def interruptRunningHandle (id : Nat) (edge : Gpio.Edge) (fd r w : Int) :
    GpioHandle :=
  { id := id
    direction := Gpio.Direction.IN
    edge := edge
    pollFD := fd
    pipeFD := some (r, w)
    isrThreadJoinable := true
    pollThreadJoinable := true }

/-- Externally visible steps of the interrupt constructor body
(GPIO.cc:71-96).  `startIsrThread` launches `isrLoop` — the spec's
*Dispatcher*; `startPollThread` launches `pollLoop` — the spec's
*EdgeWatcher*; `schedYield` is the `sched_yield()` call. -/
inductive CtorAction : Type
  | runInitCommon
  | writeEdge (e : Gpio.Edge)
  | startIsrThread
  | startPollThread
  | schedYield
deriving DecidableEq, Repr

/-- The sequence of steps performed by the interrupt constructor body
(GPIO.cc:71-96), in source order: `initCommon()`, write the edge policy to
sysfs, start `_isrThread` (Dispatcher, GPIO.cc:92), start `_pollThread`
(EdgeWatcher, GPIO.cc:94), then `sched_yield()` (GPIO.cc:96). -/
def interruptCtorActions (edge : Gpio.Edge) : List CtorAction :=
  [CtorAction.runInitCommon, CtorAction.writeEdge edge,
   CtorAction.startIsrThread, CtorAction.startPollThread,
   CtorAction.schedYield]

/-- Externally visible steps of the destructor `GPIO::~GPIO()`
(GPIO.cc:395-436).  `closeFD (some fd)` is `close(fd)` on a pipe slot;
`closeFD none` is a `close` call on an indeterminate (uninitialized) pipe
slot.  `closePollFD fd` is `close(_pollFD)`.  `unexportPin` is the write to
the sysfs `unexport` file (release of the PinResource). -/
inductive DtorAction : Type
  | setDestructingFlag
  | notifyEventCV
  | closeFD (fd : Option Int)
  | joinIsrThread
  | joinPollThread
  | closePollFD (fd : Int)
  | unexportPin
deriving DecidableEq, Repr

/-- The read end of the wakeup pipe as seen by `close(_pipeFD[0])`:
indeterminate when the pipe was never created. -/
def pipeReadEnd (h : GpioHandle) : Option Int :=
  h.pipeFD.map Prod.fst

/-- The write end of the wakeup pipe as seen by `close(_pipeFD[1])`:
indeterminate when the pipe was never created. -/
def pipeWriteEnd (h : GpioHandle) : Option Int :=
  h.pipeFD.map Prod.snd

/-- The sequence of steps performed by `GPIO::~GPIO()` (GPIO.cc:395-436), in
source order: set `_destructing` (GPIO.cc:398), `_eventCV.notify_one()`
(GPIO.cc:400, non-LOCKFREE build), `close(_pipeFD[0])` and `close(_pipeFD[1])`
(GPIO.cc:405-406) — both unconditional — join `_isrThread` then `_pollThread`
if joinable (GPIO.cc:408-409), unconditionally `close(_pollFD)` (GPIO.cc:414),
and finally the unexport write (GPIO.cc:419-429). -/
def destructorActions (h : GpioHandle) : List DtorAction :=
  [DtorAction.setDestructingFlag, DtorAction.notifyEventCV,
   DtorAction.closeFD (pipeReadEnd h), DtorAction.closeFD (pipeWriteEnd h)]
  ++ (if h.isrThreadJoinable then [DtorAction.joinIsrThread] else [])
  ++ (if h.pollThreadJoinable then [DtorAction.joinPollThread] else [])
  ++ [DtorAction.closePollFD h.pollFD, DtorAction.unexportPin]

/-- One `gpiochipN` directory of the sysfs class directory, exposing the
`base` and `ngpio` text values read by `initCommon` (GPIO.cc:113-138). -/
structure Controller : Type where
  base : Nat
  ngpio : Nat
deriving DecidableEq, Repr

/-- The id-validation test of `initCommon` (GPIO.cc:141): a controller accepts
`id` when `base <= id && id < base + ngpio`. -/
def controllerAccepts (c : Controller) (id : Nat) : Bool :=
  decide (c.base ≤ id) && decide (id < c.base + c.ngpio)

/-- Model of the sysfs class directory seen by `initCommon`: the controllers
it enumerates and the pins whose `gpio<id>` directory currently exists (the
`stat` check at GPIO.cc:161 succeeds exactly for these). -/
structure SysfsEnv : Type where
  controllers : List Controller
  exported : List Nat
deriving DecidableEq, Repr

/-- Configuration writes performed by `initCommon` after validation, in
source order (GPIO.cc:171-224). -/
inductive ConfigAction : Type
  | exportPin (id : Nat)
  | writeDirection (d : Gpio.Direction)
  | clearActiveLow
  | writeInitialLow
deriving DecidableEq, Repr

/-- `GPIO::initCommon` (GPIO.cc:100-225): validate the id against every
controller's `[base, base + ngpio)` range (throw "GPIO ... is invalid" when
no controller accepts it); then fail with "already exported" when the pin's
directory already exists (GPIO.cc:156-167) — before any export is attempted;
otherwise export the pin, write the direction, clear active_low, and for OUT
pins force the initial value LOW.  On success it returns the updated
environment together with the configuration writes in the order performed. -/
def initCommon (env : SysfsEnv) (id : Nat) (direction : Gpio.Direction) :
    Except GpioError (SysfsEnv × List ConfigAction) :=
  if ¬ env.controllers.any (fun c => controllerAccepts c id) then
    Except.error GpioError.InvalidPin
  else if id ∈ env.exported then
    Except.error GpioError.AlreadyExported
  else
    Except.ok
      ({ env with exported := id :: env.exported },
       [ConfigAction.exportPin id, ConfigAction.writeDirection direction,
        ConfigAction.clearActiveLow]
       ++ (if direction = Gpio.Direction.OUT
           then [ConfigAction.writeInitialLow] else []))

/-- Decoding of a byte from the pin's value stream, as in `pollLoop`
(GPIO.cc:311-314) and `getValue` (GPIO.cc:472-475): `'0'` is LOW, `'1'` is
HIGH, anything else throws "Invalid value read from GPIO". -/
def decodeValueByte (b : Char) : Except GpioError Gpio.Value :=
  if b = '0' then Except.ok Gpio.Value.LOW
  else if b = '1' then Except.ok Gpio.Value.HIGH
  else Except.error GpioError.CorruptValue

/-- The pin's sysfs `value` file as seen by `setValue`/`getValue`:
`accessible` models whether opening the file (and reading it) succeeds;
`valueFile` is its first byte. -/
structure SysfsPin : Type where
  direction : Gpio.Direction
  accessible : Bool
  valueFile : Char
deriving DecidableEq, Repr

/-- `GPIO::setValue` (GPIO.cc:439-455): reject IN pins ("Cannot set value on
an input GPIO"), fail when the value file cannot be opened, otherwise write
`'1'` for HIGH and `'0'` for LOW. -/
def setValue (value : Gpio.Value) (p : SysfsPin) :
    Except GpioError SysfsPin :=
  if p.direction = Gpio.Direction.IN then
    Except.error GpioError.WrongDirection
  else if ¬ p.accessible then
    Except.error GpioError.IoError
  else
    Except.ok { p with valueFile :=
      if value = Gpio.Value.HIGH then '1' else '0' }

/-- `GPIO::getValue` (GPIO.cc:458-478): fail when the value file cannot be
opened or read, otherwise decode its first byte with the `'0'`/`'1'` chain
(GPIO.cc:472-475). -/
def getValue (p : SysfsPin) : Except GpioError Gpio.Value :=
  if ¬ p.accessible then Except.error GpioError.IoError
  else decodeValueByte p.valueFile

/-- Linux errno for a wait interrupted by a signal, tested at GPIO.cc:333. -/
def EINTR : Nat := 4

/-- Outcome of the `read` call in the EdgeWatcher loop body (GPIO.cc:301):
`ok b` is a full read whose first byte is `b`; `bad` is `nbytes != MAX_BUF`
(short read or read error). -/
inductive ReadResult : Type
  | ok (b : Char)
  | bad
deriving DecidableEq, Repr

/-- What one iteration of the EdgeWatcher loop does after `poll` returns. -/
inductive LoopAction : Type
  | enqueue (v : Gpio.Value)
  | terminate
  | retry
  | fatalRead
  | fatalCorrupt
  | fatalPoll
  | fatalTimeout
deriving DecidableEq, Repr

/-- The branch structure of one `pollLoop` iteration (GPIO.cc:292-346) as a
function of the `poll` return code `rc`, whether `fdset[0].revents` has
`POLLPRI` set, `errno`, and the subsequent read's outcome:
`rc == 1` with POLLPRI reads and decodes the value (short read and corrupt
byte are fatal) and enqueues it; `rc == 1` without POLLPRI returns
(peer-closed); `rc < 0` retries on `EINTR` and is fatal otherwise; `rc == 0`
is the fatal impossible-timeout case; `rc > 1` returns immediately. -/
def pollLoopStep (rc : Int) (pollpriSet : Bool) (errno : Nat)
    (r : ReadResult) : LoopAction :=
  if rc = 1 then
    if pollpriSet then
      match r with
      | ReadResult.bad => LoopAction.fatalRead
      | ReadResult.ok b =>
        match decodeValueByte b with
        | Except.ok v => LoopAction.enqueue v
        | Except.error _ => LoopAction.fatalCorrupt
    else LoopAction.terminate
  else if rc < 0 then
    if errno = EINTR then LoopAction.retry else LoopAction.fatalPoll
  else if rc = 0 then LoopAction.fatalTimeout
  else if rc > 1 then LoopAction.terminate
  else LoopAction.retry

/-- Control point of the Dispatcher thread inside the non-LOCKFREE
`isrLoop` (GPIO.cc:350-391): `run` = holding the lock at the inner
`while(_eventQueue.empty())` test, `wait` = blocked in `_eventCV.wait`,
`done` = returned. -/
inductive IsrPhase : Type
  | run
  | wait
  | done
deriving DecidableEq, Repr

/-- Joint state of the event queue, the shutdown flag, and the Dispatcher:
`queue` is `_eventQueue`, `destructing` is `_destructing`, `calls` is the
sequence of values the user callback `_isr` has been invoked with, in
invocation order, and `pushed` is the (ghost) sequence of all values ever
pushed by the producer, in push order. -/
structure IsrConfig : Type where
  queue : List Gpio.Value
  destructing : Bool
  phase : IsrPhase
  calls : List Gpio.Value
  pushed : List Gpio.Value
deriving DecidableEq, Repr

/-- Interleaved small-step semantics of the non-LOCKFREE `isrLoop` together
with its environment.  Consumer steps follow GPIO.cc:370-389:
`dispatch` pops the front event and invokes the callback with it (the
emptiness test found the queue non-empty); `toWait` blocks in
`_eventCV.wait` when the queue is empty; on wake the consumer first checks
`_destructing` (GPIO.cc:375-376) — `wakeShutdown` returns when it is set,
regardless of the queue contents, and `wakeResume` goes back to the
emptiness test when it is not.  Environment steps: `push` is the producer's
`_eventQueue.push` under the mutex (GPIO.cc:320-324), `setFlag` is the
destructor's `_destructing = true` (GPIO.cc:398). -/
inductive IsrStep : IsrConfig → IsrConfig → Prop
  | dispatch (c : IsrConfig) (v : Gpio.Value) (rest : List Gpio.Value) :
      c.phase = IsrPhase.run → c.queue = v :: rest →
      IsrStep c { c with queue := rest, calls := c.calls ++ [v] }
  | toWait (c : IsrConfig) :
      c.phase = IsrPhase.run → c.queue = [] →
      IsrStep c { c with phase := IsrPhase.wait }
  | wakeShutdown (c : IsrConfig) :
      c.phase = IsrPhase.wait → c.destructing = true →
      IsrStep c { c with phase := IsrPhase.done }
  | wakeResume (c : IsrConfig) :
      c.phase = IsrPhase.wait → c.destructing = false →
      IsrStep c { c with phase := IsrPhase.run }
  | push (c : IsrConfig) (v : Gpio.Value) :
      IsrStep c { c with queue := c.queue ++ [v],
                         pushed := c.pushed ++ [v] }
  | setFlag (c : IsrConfig) :
      IsrStep c { c with destructing := true }

/-- Initial joint state: empty queue, flag clear, consumer at the loop head,
nothing pushed or dispatched yet. -/
def isrInit : IsrConfig :=
  { queue := [], destructing := false, phase := IsrPhase.run,
    calls := [], pushed := [] }

/-- The configurations reachable from `isrInit` by interleaved steps. -/
inductive IsrReach : IsrConfig → Prop
  | init : IsrReach isrInit
  | step {c c' : IsrConfig} : IsrReach c → IsrStep c c' → IsrReach c'

/-- A reachable configuration in which the Dispatcher has returned while the
queue still holds an event: the consumer was waiting on the empty queue, the
producer pushed `HIGH`, the destructor set `_destructing`, and the consumer
woke to find the flag set and returned without draining the queue. -/
def isrDroppedEventConfig : IsrConfig :=
  { queue := [Gpio.Value.HIGH], destructing := true, phase := IsrPhase.done,
    calls := [], pushed := [Gpio.Value.HIGH] }

/-- C1: destroying an interrupt-mode handle performs, in exactly this order:
set the ShutdownFlag, notify the queue consumer, close both WakeupChannel
(pipe) descriptors, join the Dispatcher (`_isrThread`), join the EdgeWatcher
(`_pollThread`), close the pin's value descriptor (`_pollFD`), and release
the PinResource (unexport).  In particular the value descriptor (position 6)
is closed only after the EdgeWatcher join (position 5). -/
theorem destructor_order_interrupt (id : Nat) (edge : Gpio.Edge)
    (fd r w : Int) :
    destructorActions (interruptRunningHandle id edge fd r w) =
      [DtorAction.setDestructingFlag, DtorAction.notifyEventCV,
       DtorAction.closeFD (some r), DtorAction.closeFD (some w),
       DtorAction.joinIsrThread, DtorAction.joinPollThread,
       DtorAction.closePollFD fd, DtorAction.unexportPin] ∧
    (destructorActions (interruptRunningHandle id edge fd r w))[5]? =
      some DtorAction.joinPollThread ∧
    (destructorActions (interruptRunningHandle id edge fd r w))[6]? =
      some (DtorAction.closePollFD fd) := by
  refine ⟨rfl, rfl, rfl⟩

/-- C2 counterexample: the claim says the EdgeWatcher thread (`_pollThread`)
is started before the Dispatcher thread (`_isrThread`); in the source it is
the other way around (GPIO.cc:92 starts `_isrThread`, GPIO.cc:94 starts
`_pollThread`).  Falsified at the concrete edge policy `RISING`. -/
theorem ctor_thread_order_claim_false :
    ¬ (List.indexOf CtorAction.startPollThread
         (interruptCtorActions Gpio.Edge.RISING) <
       List.indexOf CtorAction.startIsrThread
         (interruptCtorActions Gpio.Edge.RISING)) := by
  decide

/-- C2 (amended): the interrupt constructor forces the handle's direction to
`IN`, starts the Dispatcher (`_isrThread`) before the EdgeWatcher
(`_pollThread`), and yields the scheduler exactly once, after both threads
are started. -/
theorem ctor_forces_in_starts_isr_then_poll (id : Nat) (edge : Gpio.Edge) :
    (interruptCtorHandle id edge).direction = Gpio.Direction.IN ∧
    interruptCtorActions edge =
      [CtorAction.runInitCommon, CtorAction.writeEdge edge,
       CtorAction.startIsrThread, CtorAction.startPollThread,
       CtorAction.schedYield] ∧
    List.indexOf CtorAction.startIsrThread (interruptCtorActions edge) <
      List.indexOf CtorAction.startPollThread (interruptCtorActions edge) ∧
    List.indexOf CtorAction.startPollThread (interruptCtorActions edge) <
      List.indexOf CtorAction.schedYield (interruptCtorActions edge) ∧
    List.count CtorAction.schedYield (interruptCtorActions edge) = 1 := by
  refine ⟨rfl, rfl, ?_, ?_, ?_⟩ <;> cases edge <;> decide

/-- C10: the static-direction constructor starts no threads, never creates
the wakeup pipe (its `_pipeFD` slots stay uninitialized) and never opens the
value descriptor (`_pollFD` keeps the sentinel `-1`); the destructor still
unconditionally calls `close` on both uninitialized pipe slots and on the
`-1` value descriptor, and performs no joins. -/
theorem static_dtor_closes_uninitialized (id : Nat) (d : Gpio.Direction) :
    (staticCtorHandle id d).pollFD = -1 ∧
    (staticCtorHandle id d).pipeFD = none ∧
    (staticCtorHandle id d).isrThreadJoinable = false ∧
    (staticCtorHandle id d).pollThreadJoinable = false ∧
    destructorActions (staticCtorHandle id d) =
      [DtorAction.setDestructingFlag, DtorAction.notifyEventCV,
       DtorAction.closeFD none, DtorAction.closeFD none,
       DtorAction.closePollFD (-1), DtorAction.unexportPin] := by
  refine ⟨rfl, rfl, rfl, rfl, rfl⟩

/-- C3: whenever `poll` reports more than one ready descriptor, the
EdgeWatcher loop body returns immediately (GPIO.cc:344-345) — independently
of which `revents` bits are set and of any byte that could have been read —
so no read happens and no event is enqueued. -/
theorem poll_multi_ready_terminates (rc : Int) (pollpriSet : Bool)
    (errno : Nat) (r : ReadResult) (h : 1 < rc) :
    pollLoopStep rc pollpriSet errno r = LoopAction.terminate := by
  have h1 : ¬ rc = 1 := by omega
  have h2 : ¬ rc < 0 := by omega
  have h3 : ¬ rc = 0 := by omega
  simp [pollLoopStep, h1, h2, h3, h]

/-- Witness for C3 at `rc = 2`. -/
theorem poll_multi_ready_terminates_witness :
    (1 : Int) < 2 ∧
    pollLoopStep 2 true 0 (ReadResult.ok '0') = LoopAction.terminate :=
  ⟨by decide, poll_multi_ready_terminates 2 true 0 (ReadResult.ok '0')
    (by decide)⟩

/-- C5: a `poll` return code of 0 (timeout) is the fatal impossible-timeout
case (GPIO.cc:339-343); a negative return code with `errno = EINTR` retries
the wait (GPIO.cc:333-334); a negative return code with any other `errno` is
fatal to the thread (GPIO.cc:336-337). -/
theorem poll_timeout_and_error_handling (rc : Int) (pollpriSet : Bool)
    (errno : Nat) (r : ReadResult) (h : rc < 0) :
    pollLoopStep 0 pollpriSet errno r = LoopAction.fatalTimeout ∧
    (errno = EINTR →
      pollLoopStep rc pollpriSet errno r = LoopAction.retry) ∧
    (errno ≠ EINTR →
      pollLoopStep rc pollpriSet errno r = LoopAction.fatalPoll) := by
  have h1 : ¬ rc = 1 := by omega
  refine ⟨by simp [pollLoopStep], ?_, ?_⟩
  · intro he
    simp [pollLoopStep, h1, h, he]
  · intro he
    simp [pollLoopStep, h1, h, he]

/-- Witness for C5 at `rc = -1`, `errno = EINTR`. -/
theorem poll_timeout_and_error_handling_witness :
    (-1 : Int) < 0 ∧
    (pollLoopStep 0 false EINTR (ReadResult.ok '0') =
       LoopAction.fatalTimeout ∧
     (EINTR = EINTR →
       pollLoopStep (-1) false EINTR (ReadResult.ok '0') =
         LoopAction.retry) ∧
     (EINTR ≠ EINTR →
       pollLoopStep (-1) false EINTR (ReadResult.ok '0') =
         LoopAction.fatalPoll)) :=
  ⟨by decide,
   poll_timeout_and_error_handling (-1) false EINTR (ReadResult.ok '0')
     (by decide)⟩

/-- C6: `initCommon` validates the pin id against the controller metadata
once at acquisition: when some controller's `[base, base + ngpio)` range
contains the id the validation passes (the acquisition does not fail with
`InvalidPin`), and when no controller's range contains it the acquisition
fails with `InvalidPin`, aborting construction. -/
theorem initCommon_validates_range (env : SysfsEnv) (id : Nat)
    (direction : Gpio.Direction) :
    ((∃ c ∈ env.controllers, c.base ≤ id ∧ id < c.base + c.ngpio) →
       initCommon env id direction ≠ Except.error GpioError.InvalidPin) ∧
    ((∀ c ∈ env.controllers, ¬ (c.base ≤ id ∧ id < c.base + c.ngpio)) →
       initCommon env id direction = Except.error GpioError.InvalidPin) := by
  constructor
  · rintro ⟨c, hc, hlo, hhi⟩
    have hany : env.controllers.any (fun c => controllerAccepts c id) =
        true := by
      refine List.any_eq_true.mpr ⟨c, hc, ?_⟩
      simp [controllerAccepts, hlo, hhi]
    simp only [initCommon, hany]
    split
    · simp_all
    · split <;> simp
  · intro hall
    have hany : env.controllers.any (fun c => controllerAccepts c id) =
        false := by
      refine List.any_eq_false.mpr ?_
      intro c hc
      have := hall c hc
      simp only [controllerAccepts]
      intro hacc
      exact this (by simpa using hacc)
    simp [initCommon, hany]

/-- Witness for C6: pin 3 lies in a controller range `[0, 8)`; pin 100 lies
in no controller range. -/
theorem initCommon_validates_range_witness :
    ((∃ c ∈ (SysfsEnv.mk [Controller.mk 0 8] []).controllers,
        c.base ≤ 3 ∧ 3 < c.base + c.ngpio) ∧
      initCommon (SysfsEnv.mk [Controller.mk 0 8] []) 3 Gpio.Direction.IN ≠
        Except.error GpioError.InvalidPin) ∧
    ((∀ c ∈ (SysfsEnv.mk [Controller.mk 0 8] []).controllers,
        ¬ (c.base ≤ 100 ∧ 100 < c.base + c.ngpio)) ∧
      initCommon (SysfsEnv.mk [Controller.mk 0 8] []) 100 Gpio.Direction.IN =
        Except.error GpioError.InvalidPin) :=
  ⟨⟨⟨Controller.mk 0 8, by simp, by decide⟩,
    (initCommon_validates_range (SysfsEnv.mk [Controller.mk 0 8] []) 3
        Gpio.Direction.IN).1
      ⟨Controller.mk 0 8, by simp, by decide⟩⟩,
   ⟨by decide,
    (initCommon_validates_range (SysfsEnv.mk [Controller.mk 0 8] []) 100
        Gpio.Direction.IN).2 (by decide)⟩⟩

/-- C7: a pin id whose sysfs directory already exists fails the `stat`
check of `initCommon` with `AlreadyExported` before any export is attempted;
in particular a second acquisition of an id that was successfully acquired
(and not yet released) always fails with `AlreadyExported`. -/
theorem initCommon_second_acquisition_fails (env : SysfsEnv) (id : Nat)
    (d d' : Gpio.Direction) (env' : SysfsEnv) (acts : List ConfigAction)
    (h : initCommon env id d = Except.ok (env', acts)) :
    initCommon env' id d' = Except.error GpioError.AlreadyExported := by
  unfold initCommon at h
  split at h
  · simp at h
  · split at h
    · simp at h
    · next hval hexp =>
      injection h with hpair
      have henv : ({ env with exported := id :: env.exported } : SysfsEnv) =
          env' := congrArg Prod.fst hpair
      subst henv
      have hany : env.controllers.any (fun c => controllerAccepts c id) =
          true := by
        by_contra hc
        exact hval (by simpa using hc)
      simp [initCommon, hany]

/-- Witness for C7: acquiring pin 3 in a fake environment succeeds, and a
second acquisition of pin 3 fails with `AlreadyExported`. -/
theorem initCommon_second_acquisition_fails_witness :
    initCommon (SysfsEnv.mk [Controller.mk 0 8] []) 3 Gpio.Direction.IN =
      Except.ok (SysfsEnv.mk [Controller.mk 0 8] [3],
        [ConfigAction.exportPin 3,
         ConfigAction.writeDirection Gpio.Direction.IN,
         ConfigAction.clearActiveLow]) ∧
    initCommon (SysfsEnv.mk [Controller.mk 0 8] [3]) 3 Gpio.Direction.OUT =
      Except.error GpioError.AlreadyExported :=
  ⟨by rfl,
   initCommon_second_acquisition_fails (SysfsEnv.mk [Controller.mk 0 8] [])
     3 Gpio.Direction.IN Gpio.Direction.OUT
     (SysfsEnv.mk [Controller.mk 0 8] [3])
     [ConfigAction.exportPin 3,
      ConfigAction.writeDirection Gpio.Direction.IN,
      ConfigAction.clearActiveLow] (by rfl)⟩

/-- C8: the byte `'0'` decodes to LOW and `'1'` to HIGH; any other byte is
`CorruptValue` — in the EdgeWatcher loop this is fatal to the thread (the
iteration's action is `fatalCorrupt`, not an enqueue), and in `getValue` the
call fails instead of returning a level. -/
theorem value_byte_decoding (b : Char) (errno : Nat) (p : SysfsPin)
    (h0 : b ≠ '0') (h1 : b ≠ '1') (hacc : p.accessible = true) :
    decodeValueByte '0' = Except.ok Gpio.Value.LOW ∧
    decodeValueByte '1' = Except.ok Gpio.Value.HIGH ∧
    decodeValueByte b = Except.error GpioError.CorruptValue ∧
    pollLoopStep 1 true errno (ReadResult.ok b) = LoopAction.fatalCorrupt ∧
    getValue { p with valueFile := b } =
      Except.error GpioError.CorruptValue := by
  refine ⟨by simp [decodeValueByte], by simp [decodeValueByte], ?_, ?_, ?_⟩
  · simp [decodeValueByte, h0, h1]
  · simp [pollLoopStep, decodeValueByte, h0, h1]
  · simp [getValue, decodeValueByte, h0, h1, hacc]

/-- Witness for C8 at the byte `'x'`. -/
theorem value_byte_decoding_witness :
    ('x' ≠ '0' ∧ 'x' ≠ '1' ∧
      (SysfsPin.mk Gpio.Direction.IN true 'z').accessible = true) ∧
    (decodeValueByte '0' = Except.ok Gpio.Value.LOW ∧
     decodeValueByte '1' = Except.ok Gpio.Value.HIGH ∧
     decodeValueByte 'x' = Except.error GpioError.CorruptValue ∧
     pollLoopStep 1 true 0 (ReadResult.ok 'x') = LoopAction.fatalCorrupt ∧
     getValue { SysfsPin.mk Gpio.Direction.IN true 'z' with
         valueFile := 'x' } = Except.error GpioError.CorruptValue) :=
  ⟨⟨by decide, by decide, by decide⟩,
   value_byte_decoding 'x' 0 (SysfsPin.mk Gpio.Direction.IN true 'z')
     (by decide) (by decide) (by decide)⟩

/-- C9: for an OUT pin with an accessible value file, `setValue HIGH`
followed by `getValue` returns HIGH, and `setValue LOW` followed by
`getValue` returns LOW (round-trip through the value file, writing `'1'`
for HIGH and `'0'` for LOW). -/
theorem set_then_get_roundtrip (p : SysfsPin)
    (hdir : p.direction = Gpio.Direction.OUT)
    (hacc : p.accessible = true) :
    (setValue Gpio.Value.HIGH p).bind getValue =
      Except.ok Gpio.Value.HIGH ∧
    (setValue Gpio.Value.LOW p).bind getValue =
      Except.ok Gpio.Value.LOW := by
  constructor <;>
    simp [setValue, getValue, decodeValueByte, hdir, hacc, Except.bind]

/-- Witness for C9 at a concrete OUT pin. -/
theorem set_then_get_roundtrip_witness :
    ((SysfsPin.mk Gpio.Direction.OUT true '0').direction =
        Gpio.Direction.OUT ∧
      (SysfsPin.mk Gpio.Direction.OUT true '0').accessible = true) ∧
    ((setValue Gpio.Value.HIGH (SysfsPin.mk Gpio.Direction.OUT true '0')).bind
        getValue = Except.ok Gpio.Value.HIGH ∧
     (setValue Gpio.Value.LOW (SysfsPin.mk Gpio.Direction.OUT true '0')).bind
        getValue = Except.ok Gpio.Value.LOW) :=
  ⟨⟨by decide, by decide⟩,
   set_then_get_roundtrip (SysfsPin.mk Gpio.Direction.OUT true '0')
     (by decide) (by decide)⟩

/-- C4 counterexample: the claim says the Dispatcher loop never returns
while the queue is non-empty; but the configuration
`isrDroppedEventConfig` — Dispatcher returned (`done`) with `HIGH` still
queued — is reachable: the consumer waits on the empty queue, the producer
pushes `HIGH`, the destructor sets the flag, and the consumer wakes at
GPIO.cc:375-376 and returns without re-checking the queue. -/
theorem isr_can_return_with_nonempty_queue :
    IsrReach isrDroppedEventConfig ∧
    isrDroppedEventConfig.phase = IsrPhase.done ∧
    isrDroppedEventConfig.queue ≠ [] := by
  refine ⟨?_, rfl, by decide⟩
  have h1 := IsrReach.step IsrReach.init (IsrStep.toWait isrInit rfl rfl)
  have h2 := IsrReach.step h1 (IsrStep.push _ Gpio.Value.HIGH)
  have h3 := IsrReach.step h2 (IsrStep.setFlag _)
  exact IsrReach.step h3 (IsrStep.wakeShutdown _ rfl rfl)

/-- C4 (amended): in every reachable configuration the values dispatched to
the user callback, in invocation order, followed by the queue contents,
equal the values pushed in push order — so the Dispatcher drains the queue
strictly FIFO, invoking the callback exactly once per dequeued event and
never concurrently with itself — and the loop has returned only if the
ShutdownFlag is set; however it returns as soon as it observes the flag on
waking from the empty-queue wait, even if events were enqueued during the
wait, so it can return while the queue is non-empty. -/
theorem isr_fifo_and_shutdown_invariant (c : IsrConfig) (h : IsrReach c) :
    c.pushed = c.calls ++ c.queue ∧
    (c.phase = IsrPhase.done → c.destructing = true) := by
  induction h with
  | init => exact ⟨rfl, fun hph => absurd hph (by decide)⟩
  | @step c c' hr hs ih =>
    obtain ⟨ih1, ih2⟩ := ih
    cases hs with
    | dispatch v rest hph hq =>
      refine ⟨?_, fun hd => ih2 hd⟩
      show c.pushed = (c.calls ++ [v]) ++ rest
      rw [ih1, hq]
      simp
    | toWait hph hq =>
      refine ⟨ih1, fun hd => ?_⟩
      simp at hd
    | wakeShutdown hph hflag =>
      exact ⟨ih1, fun _ => hflag⟩
    | wakeResume hph hflag =>
      refine ⟨ih1, fun hd => ?_⟩
      simp at hd
    | push v =>
      refine ⟨?_, fun hd => ih2 hd⟩
      show c.pushed ++ [v] = c.calls ++ (c.queue ++ [v])
      rw [ih1]
      simp
    | setFlag =>
      exact ⟨ih1, fun _ => rfl⟩

/-- Witness for the C4 invariant at the initial configuration. -/
theorem isr_fifo_and_shutdown_invariant_witness :
    isrInit.pushed = isrInit.calls ++ isrInit.queue ∧
    (isrInit.phase = IsrPhase.done → isrInit.destructing = true) :=
  isr_fifo_and_shutdown_invariant isrInit IsrReach.init
